import Mathlib

/-
Verification of src/backend/generate_randoms.py (repository mnesler/maxtory).

The script is a straight-line program:
  r1..r4 := secrets.randbelow(10000)   (four independent draws, lines 9-12)
  print(f"{r1} {r2} {r3} {r4}")        (stdout, newline appended by print, line 15)
  with open('output.txt', 'w') as f:   (truncating open, scoped handle, line 18)
      f.write(f"{r1},{r2},{r3},{r4}")  (line 19)

The embedding below models one run as a function of an entropy source and a
failure-injection record, following Python runtime semantics: an uncaught
exception terminates the process with a non-zero exit status, opening a file
in mode 'w' truncates it immediately, and a `with` block closes the handle on
every exit path, exceptional ones included.
-/

namespace Maxtory

/-- Model of the Python standard library call `secrets.randbelow n` as used on
lines 9-12 of `generate_randoms.py`: it consumes one word `e` of entropy and
returns a value in `[0, n)`.  Taking the result to be `e % n` realises the
documented contract of `randbelow` and lets a test fix the draws by choosing
the entropy. -/
def randbelow (n : Nat) (e : Nat) : Nat :=
  e % n

/-- Observable events of one run of the script, in program order. -/
inductive Event where
  | draw (i : Nat)
  | printLine
  | openFile
  | writeFile
  | closeFile
  | raiseErr
deriving DecidableEq

/-- Failure injection for the fallible primitives of the script: the entropy
source behind `secrets.randbelow` (spec error kind `EntropyUnavailable`), and
`open` / `f.write` (spec error kind `FileWriteError`). -/
structure FailureModel where
  entropyFails : Bool
  openFails : Bool
  writeFails : Bool
deriving DecidableEq

/-- The failure-free run configuration. -/
def noFailure : FailureModel :=
  ⟨false, false, false⟩

/-- Result of one run: accumulated stdout, content of `output.txt` afterwards
(`none` means the file is absent), whether the file handle is still open when
the process terminates, the process exit code, and the event trace. -/
structure Outcome where
  stdout : String
  file : Option String
  fileHandleOpen : Bool
  exitCode : Nat
  events : List Event

/-- The f-string formatting of lines 15 and 19: the four integers rendered in
decimal (no leading zeros, which is how Python formats a non-negative `int`)
and joined by the separator `sep`. -/
def sepJoin (sep : String) (a b c d : Nat) : String :=
  Nat.repr a ++ sep ++ Nat.repr b ++ sep ++ Nat.repr c ++ sep ++ Nat.repr d

/-- The four draws of lines 9-12, in draw order. -/
def draws (ent : Nat → Nat) : List Nat :=
  [randbelow 10000 (ent 0), randbelow 10000 (ent 1),
   randbelow 10000 (ent 2), randbelow 10000 (ent 3)]

/-- One run of `generate_randoms.py` over entropy source `ent`, failure
injection `fm`, and prior content `prior` of `output.txt`.  The branches
follow Python semantics at each fallible step, in the order the script
executes them:
* `randbelow` fails: nothing was printed or opened, the file keeps its prior
  content, the uncaught exception exits the process non-zero;
* `open('output.txt', 'w')` fails: stdout has already been printed, the file
  keeps its prior content, exit non-zero;
* `f.write` fails: the truncating open has already replaced the content by
  the empty string, the `with` block closes the handle, exit non-zero;
* no failure: the comma-joined line is written into the truncated file,
  handle closed, exit 0. -/
def run (ent : Nat → Nat) (fm : FailureModel) (prior : Option String) :
    Outcome :=
  if fm.entropyFails then
    { stdout := "", file := prior, fileHandleOpen := false, exitCode := 1,
      events := [Event.raiseErr] }
  else
    let r1 := randbelow 10000 (ent 0)
    let r2 := randbelow 10000 (ent 1)
    let r3 := randbelow 10000 (ent 2)
    let r4 := randbelow 10000 (ent 3)
    let line := sepJoin " " r1 r2 r3 r4 ++ "\n"
    if fm.openFails then
      { stdout := line, file := prior, fileHandleOpen := false, exitCode := 1,
        events := [Event.draw 1, Event.draw 2, Event.draw 3, Event.draw 4,
                   Event.printLine, Event.raiseErr] }
    else
      let truncated : String := ""
      if fm.writeFails then
        { stdout := line, file := some truncated, fileHandleOpen := false,
          exitCode := 1,
          events := [Event.draw 1, Event.draw 2, Event.draw 3, Event.draw 4,
                     Event.printLine, Event.openFile, Event.raiseErr,
                     Event.closeFile] }
      else
        { stdout := line, file := some (truncated ++ sepJoin "," r1 r2 r3 r4),
          fileHandleOpen := false, exitCode := 0,
          events := [Event.draw 1, Event.draw 2, Event.draw 3, Event.draw 4,
                     Event.printLine, Event.openFile, Event.writeFile,
                     Event.closeFile] }

/-- Entropy source of the spec scenario: the draws come out as
`1234, 0, 9999, 42` in sequence. -/
def mockEnt : Nat → Nat :=
  fun i => List.getD [1234, 0, 9999, 42] i 0

/-- The event trace of a run depends only on which failures were injected. -/
def eventsOf (fm : FailureModel) : List Event :=
  if fm.entropyFails then [Event.raiseErr]
  else if fm.openFails then
    [Event.draw 1, Event.draw 2, Event.draw 3, Event.draw 4,
     Event.printLine, Event.raiseErr]
  else if fm.writeFails then
    [Event.draw 1, Event.draw 2, Event.draw 3, Event.draw 4,
     Event.printLine, Event.openFile, Event.raiseErr, Event.closeFile]
  else
    [Event.draw 1, Event.draw 2, Event.draw 3, Event.draw 4,
     Event.printLine, Event.openFile, Event.writeFile, Event.closeFile]

lemma run_events (ent : Nat → Nat) (fm : FailureModel) (prior : Option String) :
    (run ent fm prior).events = eventsOf fm := by
  rcases fm with ⟨e, o, w⟩
  cases e <;> cases o <;> cases w <;> rfl

lemma run_exitCode (ent : Nat → Nat) (fm : FailureModel) (prior : Option String) :
    (run ent fm prior).exitCode =
      if fm.entropyFails || fm.openFails || fm.writeFails then 1 else 0 := by
  rcases fm with ⟨e, o, w⟩
  cases e <;> cases o <;> cases w <;> rfl

lemma run_file (ent : Nat → Nat) (fm : FailureModel) (prior : Option String) :
    (run ent fm prior).file =
      if fm.entropyFails || fm.openFails then prior
      else if fm.writeFails then some ""
      else some (sepJoin "," (randbelow 10000 (ent 0)) (randbelow 10000 (ent 1))
        (randbelow 10000 (ent 2)) (randbelow 10000 (ent 3))) := by
  rcases fm with ⟨e, o, w⟩
  cases e <;> cases o <;> cases w <;> rfl

/-- C1: on every run, each of the four generated integers lies in the
inclusive range `[0, 9999]` (each draw comes from a set of 10000 values). -/
theorem generated_ints_in_range (ent : Nat → Nat) (x : Nat)
    (hx : x ∈ draws ent) : 0 ≤ x ∧ x ≤ 9999 := by
  refine ⟨Nat.zero_le x, ?_⟩
  simp [draws, randbelow] at hx
  rcases hx with h | h | h | h <;> subst h <;>
    exact Nat.lt_succ_iff.mp (Nat.mod_lt _ (by decide))

/-- Witness for C1: the first draw of the mocked scenario is one of the four
generated integers and lies in the range. -/
theorem generated_ints_in_range_witness :
    (1234 : Nat) ∈ draws mockEnt ∧ 0 ≤ (1234 : Nat) ∧ (1234 : Nat) ≤ 9999 :=
  ⟨by decide, generated_ints_in_range mockEnt 1234 (by decide)⟩

/-- C2: on every run in which the draws happen, the line written to stdout is
exactly the four generated integers in draw order, rendered in decimal,
joined by single spaces and terminated by a single newline; in particular the
mocked draws `1234, 0, 9999, 42` give stdout exactly `"1234 0 9999 42\n"`. -/
theorem stdout_line_exact (ent : Nat → Nat) (fm : FailureModel)
    (prior mockPrior : Option String) (hent : fm.entropyFails = false) :
    (run ent fm prior).stdout =
      sepJoin " " (randbelow 10000 (ent 0)) (randbelow 10000 (ent 1))
        (randbelow 10000 (ent 2)) (randbelow 10000 (ent 3)) ++ "\n" ∧
    (run mockEnt noFailure mockPrior).stdout = "1234 0 9999 42\n" := by
  rcases fm with ⟨e, o, w⟩
  cases e
  · exact ⟨by cases o <;> cases w <;> rfl, rfl⟩
  · exact Bool.noConfusion hent

/-- Witness for C2 at the mocked entropy and the failure-free configuration. -/
theorem stdout_line_exact_witness :
    (run mockEnt noFailure none).stdout =
      sepJoin " " (randbelow 10000 (mockEnt 0)) (randbelow 10000 (mockEnt 1))
        (randbelow 10000 (mockEnt 2)) (randbelow 10000 (mockEnt 3)) ++ "\n" ∧
    (run mockEnt noFailure none).stdout = "1234 0 9999 42\n" :=
  stdout_line_exact mockEnt noFailure none none rfl

/-- C3: on every successful run, the content of `output.txt` is exactly the
four generated integers in draw order joined by commas, with no surrounding
whitespace and no trailing newline; in particular the mocked draws
`1234, 0, 9999, 42` leave the file containing exactly `"1234,0,9999,42"`. -/
theorem file_content_exact (ent : Nat → Nat) (prior : Option String) :
    (run ent noFailure prior).file =
      some (sepJoin "," (randbelow 10000 (ent 0)) (randbelow 10000 (ent 1))
        (randbelow 10000 (ent 2)) (randbelow 10000 (ent 3))) ∧
    (run mockEnt noFailure prior).file = some "1234,0,9999,42" :=
  ⟨rfl, rfl⟩

/-- C4: on every successful run, console output and file output encode the
same four integer values in the same order; the two renderings differ only in
the separator (space versus comma) and in the trailing newline. -/
theorem console_file_same_values (ent : Nat → Nat) (prior : Option String) :
    ∃ a b c d : Nat, draws ent = [a, b, c, d] ∧
      (run ent noFailure prior).stdout = sepJoin " " a b c d ++ "\n" ∧
      (run ent noFailure prior).file = some (sepJoin "," a b c d) :=
  ⟨randbelow 10000 (ent 0), randbelow 10000 (ent 1), randbelow 10000 (ent 2),
   randbelow 10000 (ent 3), rfl, rfl, rfl⟩

/-- C5: on every successful run and for every prior content of `output.txt`
(absent, empty, or arbitrarily long), the content afterwards is exactly the
newly written comma-separated string: the file is overwritten unconditionally
and the outcome does not depend on the prior content at all. -/
theorem overwrite_unconditional (ent : Nat → Nat) (prior : Option String) :
    (run ent noFailure prior).file =
      some (sepJoin "," (randbelow 10000 (ent 0)) (randbelow 10000 (ent 1))
        (randbelow 10000 (ent 2)) (randbelow 10000 (ent 3))) ∧
    ∀ prior2 : Option String,
      (run ent noFailure prior).file = (run ent noFailure prior2).file :=
  ⟨rfl, fun _ => rfl⟩

/-- Counterexample to C6: with prior content `"8888888888"` and a failing
`f.write`, the run exits non-zero but leaves `output.txt` present and empty —
the truncating `open('output.txt', 'w')` has already destroyed the prior
content — so the file is neither untouched nor absent, contradicting the
claim as stated. -/
theorem write_failure_counterexample :
    (run mockEnt ⟨false, false, true⟩ (some "8888888888")).exitCode ≠ 0 ∧
    (run mockEnt ⟨false, false, true⟩ (some "8888888888")).file = some "" ∧
    ¬((run mockEnt ⟨false, false, true⟩ (some "8888888888")).file =
        some "8888888888" ∨
      (run mockEnt ⟨false, false, true⟩ (some "8888888888")).file = none) := by
  decide

/-- C6 amended: if opening `output.txt` fails, the program exits non-zero and
the file is untouched (prior content intact, or still absent); if the write
fails after a successful open, the program exits non-zero and the file is
left exactly empty — mode `'w'` truncated it on open — with no residual
prior bytes and no bytes of the new content. -/
theorem write_failure_amended (ent : Nat → Nat) (prior : Option String)
    (fm : FailureModel) (hent : fm.entropyFails = false) :
    (fm.openFails = true →
      (run ent fm prior).exitCode ≠ 0 ∧ (run ent fm prior).file = prior) ∧
    (fm.openFails = false → fm.writeFails = true →
      (run ent fm prior).exitCode ≠ 0 ∧ (run ent fm prior).file = some "") := by
  rw [run_exitCode, run_file]
  rcases fm with ⟨e, o, w⟩
  cases e
  · cases o <;> cases w <;> simp
  · exact Bool.noConfusion hent

/-- Witness for the amended C6, at a run whose `f.write` fails after prior
content `"old"`. -/
theorem write_failure_amended_witness :
    (run mockEnt ⟨false, false, true⟩ (some "old")).exitCode ≠ 0 ∧
    (run mockEnt ⟨false, false, true⟩ (some "old")).file = some "" :=
  (write_failure_amended mockEnt (some "old") ⟨false, false, true⟩ rfl).2 rfl rfl

/-- C7: the exit status is `0` exactly on failure-free runs; any injected
failure raises an uncaught exception (the trace contains `raiseErr` exactly
when some failure occurred, and the exit status is then non-zero), and there
is no retry: no run opens, writes, or prints more than once. -/
theorem exit_code_semantics (ent : Nat → Nat) (fm : FailureModel)
    (prior : Option String) :
    ((run ent fm prior).exitCode = 0 ↔ fm = noFailure) ∧
    (Event.raiseErr ∈ (run ent fm prior).events ↔ fm ≠ noFailure) ∧
    List.count Event.openFile (run ent fm prior).events ≤ 1 ∧
    List.count Event.writeFile (run ent fm prior).events ≤ 1 ∧
    List.count Event.printLine (run ent fm prior).events ≤ 1 := by
  rw [run_exitCode, run_events]
  rcases fm with ⟨e, o, w⟩
  cases e <;> cases o <;> cases w <;>
    exact ⟨by decide, by decide, by decide, by decide, by decide⟩

/-- C8: on every exit path, failing ones included, the handle to `output.txt`
is closed before the process terminates: the handle is never left open, and
whenever the file was opened the trace also records its closing. -/
theorem handle_closed_all_paths (ent : Nat → Nat) (fm : FailureModel)
    (prior : Option String) :
    (run ent fm prior).fileHandleOpen = false ∧
    (Event.openFile ∈ (run ent fm prior).events ↔
      Event.closeFile ∈ (run ent fm prior).events) := by
  rw [run_events]
  rcases fm with ⟨e, o, w⟩
  refine ⟨by cases e <;> cases o <;> cases w <;> rfl, ?_⟩
  cases e <;> cases o <;> cases w <;> decide

/-- C10: on every run in which the draws happen, the stdout line is printed
strictly before `output.txt` is opened (so before any write attempt), and
stdout already holds the full four-integer line — also when the open or the
write subsequently fails. -/
theorem print_before_file_open (ent : Nat → Nat) (fm : FailureModel)
    (prior : Option String) (hent : fm.entropyFails = false) :
    List.indexOf Event.printLine (run ent fm prior).events <
      List.indexOf Event.openFile (run ent fm prior).events ∧
    (run ent fm prior).stdout =
      sepJoin " " (randbelow 10000 (ent 0)) (randbelow 10000 (ent 1))
        (randbelow 10000 (ent 2)) (randbelow 10000 (ent 3)) ++ "\n" := by
  rcases fm with ⟨e, o, w⟩
  cases e
  · rw [run_events]
    exact ⟨by cases o <;> cases w <;> decide, by cases o <;> cases w <;> rfl⟩
  · exact Bool.noConfusion hent

/-- Witness for C10 at a run whose `f.write` fails: the print event precedes
the open event and stdout holds the complete line. -/
theorem print_before_file_open_witness :
    List.indexOf Event.printLine
        (run mockEnt ⟨false, false, true⟩ none).events <
      List.indexOf Event.openFile
        (run mockEnt ⟨false, false, true⟩ none).events ∧
    (run mockEnt ⟨false, false, true⟩ none).stdout =
      sepJoin " " (randbelow 10000 (mockEnt 0)) (randbelow 10000 (mockEnt 1))
        (randbelow 10000 (mockEnt 2)) (randbelow 10000 (mockEnt 3)) ++ "\n" :=
  print_before_file_open mockEnt ⟨false, false, true⟩ none rfl

end Maxtory
